import Mathlib

/-!
Verification development for the smartback manual-backpropagation engine
(`layers.py` and `models.py` of experiment 2, model parallelism).

Tensors are modelled over the rationals.  Where a layer's code stores its
activations row-major and dispatches on `ndim` (the `Dense` layer), tensors are
a flat list together with a shape; where only fixed-rank NCHW or (batch, seq,
emb) tensors flow (convolution, norms, pooling, attention), tensors are index
functions with explicit dimension fields.  Transcendental device primitives
(`torch.exp`, `torch.sqrt`) are abstracted as function parameters; the random
Bernoulli draw of dropout is passed in as an explicit oracle argument.
-/

namespace Smartback

/-- Sum of `f` over the index range `0, ..., n-1`; models a `torch.sum`
reduction over one axis. -/
def sumR (n : Nat) (f : Nat → ℚ) : ℚ := ((List.range n).map f).sum

/-- A row-major tensor: a shape together with the flat data list, as the
`Dense` layer's code sees its `ndim`-polymorphic inputs. -/
structure Tensor where
  shape : List Nat
  data : List ℚ
deriving DecidableEq

/-- Number of dimensions (`t.ndim` in the source). -/
def Tensor.ndim (t : Tensor) : Nat := t.shape.length

/-- Size of the last (feature) dimension. -/
def Tensor.lastDim (t : Tensor) : Nat := t.shape.getLastD 0

/-- Product of a list of dimension sizes. -/
def listProd (l : List Nat) : Nat := l.foldl (fun a b => a * b) 1

/-- Number of leading-dimension groups: the product of every dimension except
the last.  A row-major tensor is a `groups × lastDim` matrix of entries. -/
def Tensor.groups (t : Tensor) : Nat := listProd t.shape.dropLast

/-- Entry at leading-group `g`, last-dimension index `j`. -/
def Tensor.entry (t : Tensor) (g j : Nat) : ℚ := t.data.getD (g * t.lastDim + j) 0

/-- Matrix entry access for a weights list of rows. -/
def Wat (W : List (List ℚ)) (i j : Nat) : ℚ := (W.getD i []).getD j 0

/-- The `Dense` layer state: weights of shape `input_size × output_size`,
bias of length `output_size`, their gradient buffers, and the cached
`inputs` / `dL_dout` tensors written in place by `forward` / `backward_p1`. -/
structure Dense where
  weights : List (List ℚ)
  bias : List ℚ
  weights_g : List (List ℚ)
  bias_g : List ℚ
  inputs : Tensor
  dL_dout : Tensor
deriving DecidableEq

/-- `input_size` of the layer (rows of `weights`). -/
def Dense.inputSize (d : Dense) : Nat := d.weights.length

/-- `output_size` of the layer (length of `bias`). -/
def Dense.outputSize (d : Dense) : Nat := d.bias.length

/-- `Dense.forward` from the source: stores `x` into the cached `inputs`
buffer, then computes `vmap(matmul(·, weights))(x) + bias`.  For the 2-D and
3-D inputs the layer supports, the `vmap` of `matmul` over the leading
dimensions contracts the last axis of `x` with `weights`:
`out[..., j] = sum_i x[..., i] * W[i, j] + b[j]`. -/
def Dense.forward (d : Dense) (x : Tensor) : Tensor × Dense :=
  let out : Tensor :=
    { shape := x.shape.dropLast ++ [d.outputSize]
      data := (List.range x.groups).flatMap (fun g =>
        (List.range d.outputSize).map (fun j =>
          sumR x.lastDim (fun i => x.entry g i * Wat d.weights i j) + d.bias.getD j 0)) }
  (out, { d with inputs := x })

/-- `Dense.backward_p1` from the source: stores `dL_dout` into the cached
buffer and returns `vmap(matmul(·, weights.T))(dL_dout)`, i.e.
`dL_dx[..., i] = sum_j dL_dout[..., j] * W[i, j]`. -/
def Dense.backward_p1 (d : Dense) (g : Tensor) : Tensor × Dense :=
  let out : Tensor :=
    { shape := g.shape.dropLast ++ [d.inputSize]
      data := (List.range g.groups).flatMap (fun gr =>
        (List.range d.inputSize).map (fun i =>
          sumR g.lastDim (fun j => g.entry gr j * Wat d.weights i j))) }
  (out, { d with dL_dout := g })

/-- Error raised by `Dense.backward_p2` when the cached `dL_dout` has an
unsupported number of dimensions. -/
inductive DenseErr where
  | unsupportedNdim
deriving DecidableEq

/-- The bias-gradient computation of `Dense.backward_p2`:
`torch.sum(dL_dout, dim=all-but-last)`. -/
def Dense.biasGradCalc (g : Tensor) : List ℚ :=
  (List.range g.lastDim).map (fun j => sumR g.groups (fun gr => g.entry gr j))

/-- `Dense.backward_p2` from the source.  The bias gradient is assigned first;
then the weight gradient is assigned by the `ndim == 2` branch
(`sum_b inputs[b] ⊗ dL_dout[b]`), the `ndim == 3` branch
(`sum over both leading dims of inputs^T · dL_dout`), or an exception is
raised.  The mutate-then-raise order of the Python method is kept by
returning the partially updated state together with the optional error. -/
def Dense.backward_p2 (d : Dense) : Dense × Option DenseErr :=
  let d1 := { d with bias_g := Dense.biasGradCalc d.dL_dout }
  if d.dL_dout.ndim = 2 then
    ({ d1 with weights_g :=
        (List.range d.inputSize).map (fun i =>
          (List.range d.dL_dout.lastDim).map (fun j =>
            sumR (d.dL_dout.shape.getD 0 0) (fun b =>
              d.inputs.entry b i * d.dL_dout.entry b j))) }, none)
  else if d.dL_dout.ndim = 3 then
    ({ d1 with weights_g :=
        (List.range d.inputSize).map (fun i =>
          (List.range d.dL_dout.lastDim).map (fun j =>
            sumR (d.dL_dout.shape.getD 0 0) (fun b =>
              sumR (d.dL_dout.shape.getD 1 0) (fun c =>
                d.inputs.entry (b * d.dL_dout.shape.getD 1 0 + c) i *
                  d.dL_dout.entry (b * d.dL_dout.shape.getD 1 0 + c) j)))) }, none)
  else
    (d1, some .unsupportedNdim)

/-- The `Dropout` layer state: drop probability `p`, the `training` flag, and
the cached mask buffer `p_mask` allocated by `initial_pass`. -/
structure Dropout where
  p : ℚ
  training : Bool
  p_mask : List ℚ
deriving DecidableEq

/-- `Dropout.forward` from the source.  `fresh` is the
`torch.bernoulli(ones_like(x) - p)` sample this call would draw; randomness is
threaded in as an explicit oracle argument.  Inference mode or `p == 0`
returns `x` untouched without resampling; `p == 1` returns zeros; otherwise
the mask buffer is overwritten with the fresh draw and `x * p_mask` is
returned. -/
def Dropout.forward (s : Dropout) (x fresh : List ℚ) : List ℚ × Dropout :=
  if s.training = false ∨ s.p = 0 then (x, s)
  else if s.p = 1 then (x.map (fun _ => 0), s)
  else (x.zipWith (fun a b => a * b) fresh, { s with p_mask := fresh })

/-- `Dropout.backward_p1` from the source: identity for `p == 0`, zeros for
`p == 1`, otherwise `dL_dout * p_mask` with the cached mask. -/
def Dropout.backward_p1 (s : Dropout) (d : List ℚ) : List ℚ :=
  if s.p = 0 then d
  else if s.p = 1 then d.map (fun _ => 0)
  else d.zipWith (fun a b => a * b) s.p_mask

/-- A Python `Union[Sequence[int], int]` argument. -/
inductive IntOrPair where
  | int (n : Nat)
  | pair (a b : Nat)
deriving DecidableEq

/-- A Python `Union[bool, int]` argument. -/
inductive BoolOrInt where
  | bool (b : Bool)
  | int (n : Nat)
deriving DecidableEq

/-- Kernel-size / stride normalization of `Conv2D.__init__`:
an `int` becomes the pair `(n, n)`. -/
def normPair : IntOrPair → Nat × Nat
  | .int n => (n, n)
  | .pair a b => (a, b)

/-- Padding normalization of `Conv2D.__init__`: `True ↦ 1`, `False ↦ 0`,
an `int` stays itself. -/
def normPadding : BoolOrInt → Nat
  | .bool b => if b then 1 else 0
  | .int n => n

/-- The configuration a successful `Conv2D.__init__` stores. -/
structure Conv2DCfg where
  in_channels : Nat
  out_channels : Nat
  k_size : Nat × Nat
  hasBias : Bool
  padding : Nat
  stride : Nat × Nat
deriving DecidableEq

/-- The eager construction failure of `Conv2D.__init__`. -/
inductive Conv2DInitError where
  | strideLargerThan3NotImplemented
deriving DecidableEq

/-- `Conv2D.__init__` from the source: normalizes `k_size`, `padding` and
`stride`, then raises `NotImplementedError` when either stride component
exceeds 3, before any tensor work can happen. -/
def Conv2D.init (in_channels out_channels : Nat) (k_size : IntOrPair) (bias : Bool)
    (padding : BoolOrInt) (stride : IntOrPair) : Except Conv2DInitError Conv2DCfg :=
  let k := normPair k_size
  let p := normPadding padding
  let s := normPair stride
  if s.1 > 3 ∨ s.2 > 3 then .error .strideLargerThan3NotImplemented
  else .ok { in_channels := in_channels, out_channels := out_channels, k_size := k,
             hasBias := bias, padding := p, stride := s }

/-- `true` exactly when the constructor returned without raising. -/
def constructed {ε α : Type} : Except ε α → Bool
  | .ok _ => true
  | .error _ => false

/-- Zero-padded access into an `H × W` feature map: index `(y, x)` of the
padded map, `p` rows/columns of zeros on each side. -/
def padAt (H W p : Nat) (f : Nat → Nat → ℚ) (y x : Nat) : ℚ :=
  if p ≤ y ∧ y < H + p ∧ p ≤ x ∧ x < W + p then f (y - p) (x - p) else 0

/-- `Conv2D` runtime state: kernel and optional bias with their gradient
buffers, the stride/padding configuration, the cached `inputs`
(`inB × in_channels × inH × inW`) and `dL_dout`
(`inB × out_channels × outH × outW`) written in place by `forward` /
`backward_p1`.  Fixed-rank NCHW tensors are index functions with explicit
dimension fields. -/
structure Conv2D where
  in_channels : Nat
  out_channels : Nat
  kh : Nat
  kw : Nat
  kernel : Nat → Nat → Nat → Nat → ℚ
  bias : Option (Nat → ℚ)
  kernel_g : Nat → Nat → Nat → Nat → ℚ
  bias_g : Option (Nat → ℚ)
  stride : Nat × Nat
  padding : Nat
  inB : Nat
  inH : Nat
  inW : Nat
  inputs : Nat → Nat → Nat → Nat → ℚ
  outH : Nat
  outW : Nat
  dL_dout : Nat → Nat → Nat → Nat → ℚ

/-- `Conv2D.backward_p2` from the source: when a bias exists its gradient
buffer is overwritten with `torch.sum(dL_dout, dim=(0,2,3))`; the kernel
gradient buffer is overwritten with the per-(out-channel, in-channel)
correlation `conv2d(inputs_feature, dL_dout_channel, stride, padding)` summed
over the batch. -/
def Conv2D.backward_p2 (s : Conv2D) : Conv2D :=
  let s1 :=
    match s.bias with
    | some _ =>
        { s with bias_g := some (fun o =>
            sumR s.inB (fun n => sumR s.outH (fun u => sumR s.outW (fun v =>
              s.dL_dout n o u v)))) }
    | none => s
  let kg := fun o i a b =>
    sumR s.inB (fun n => sumR s.outH (fun u => sumR s.outW (fun v =>
      padAt s.inH s.inW s.padding (fun y x => s.inputs n i y x)
          (a * s.stride.1 + u) (b * s.stride.2 + v) * s.dL_dout n o u v)))
  { s1 with kernel_g := kg }

/-- `BatchNorm2D` state: scale/shift parameters with gradient buffers, running
statistics, and the cached intermediates (`x_sub_mean`, `var`, `norm_x`,
`dL_dout`) over `B × in_channels × H × W` activations. -/
structure BatchNorm2D where
  in_channels : Nat
  eps : ℚ
  momentum : ℚ
  gamma : Nat → ℚ
  beta : Nat → ℚ
  gamma_g : Nat → ℚ
  beta_g : Nat → ℚ
  r_mean : Nat → ℚ
  r_var : Nat → ℚ
  training : Bool
  B : Nat
  H : Nat
  W : Nat
  x_sub_mean : Nat → Nat → Nat → Nat → ℚ
  var : Nat → Nat → Nat → Nat → ℚ
  norm_x : Nat → Nat → Nat → Nat → ℚ
  dL_dout : Nat → Nat → Nat → Nat → ℚ

/-- `BatchNorm2D.backward_p2` from the source:
`gamma_g = torch.sum(dL_dout * norm_x, dim=[0,2,3])` and
`beta_g = torch.sum(dL_dout, dim=[0,2,3])`, both plain overwrites. -/
def BatchNorm2D.backward_p2 (s : BatchNorm2D) : BatchNorm2D :=
  { s with
    gamma_g := fun c => sumR s.B (fun n => sumR s.H (fun h => sumR s.W (fun w =>
      s.dL_dout n c h w * s.norm_x n c h w)))
    beta_g := fun c => sumR s.B (fun n => sumR s.H (fun h => sumR s.W (fun w =>
      s.dL_dout n c h w))) }

/-- `NLPLayerNorm` state over `(batch, seq, dim_size)` activations: `gamma` /
`bias` parameters with gradient buffers and the cached intermediates. -/
structure NLPLayerNorm where
  dim_size : Nat
  eps : ℚ
  gamma : Nat → ℚ
  bias : Nat → ℚ
  gamma_g : Nat → ℚ
  bias_g : Nat → ℚ
  B : Nat
  C : Nat
  x_sub_mean : Nat → Nat → Nat → ℚ
  var : Nat → Nat → ℚ
  norm_x : Nat → Nat → Nat → ℚ
  dL_dout : Nat → Nat → Nat → ℚ

/-- `NLPLayerNorm.backward_p2` from the source:
`bias_g = torch.sum(dL_dout, dim=all-but-last)` and
`gamma_g = torch.sum(dL_dout * norm_x, dim=all-but-last)`, both overwrites. -/
def NLPLayerNorm.backward_p2 (s : NLPLayerNorm) : NLPLayerNorm :=
  { s with
    bias_g := fun e => sumR s.B (fun b => sumR s.C (fun c => s.dL_dout b c e))
    gamma_g := fun e => sumR s.B (fun b => sumR s.C (fun c =>
      s.dL_dout b c e * s.norm_x b c e)) }

/-- `NLPRMSNorm` state over `(batch, seq, dim_size)` activations: the
`weights` parameter with its gradient buffer and the cached intermediates
(`inputs`, `mean_pow2`, `rms_norm_x`, `dL_dout`). -/
structure NLPRMSNorm where
  dim_size : Nat
  eps : ℚ
  weights : Nat → ℚ
  weights_g : Nat → ℚ
  B : Nat
  C : Nat
  inputs : Nat → Nat → Nat → ℚ
  mean_pow2 : Nat → Nat → ℚ
  rms_norm_x : Nat → Nat → Nat → ℚ
  dL_dout : Nat → Nat → Nat → ℚ

/-- `NLPRMSNorm.backward_p2` from the source:
`weights_g = torch.sum(dL_dout * rms_norm_x, dim=all-but-last)`. -/
def NLPRMSNorm.backward_p2 (s : NLPRMSNorm) : NLPRMSNorm :=
  { s with weights_g := fun e => sumR s.B (fun b => sumR s.C (fun c =>
      s.dL_dout b c e * s.rms_norm_x b c e)) }

/-- Attribute names looked up on an `NLPRMSNorm` object. -/
inductive RMSAttr where
  | initial_pass
  | forward
  | rmsnorm_jacobian
  | norm_jacobian
  | backward_p1
  | backward_p2
deriving DecidableEq

/-- The methods class `NLPRMSNorm` actually defines in `layers.py`
(besides `__init__`): note the Jacobian helper is named `_rmsnorm_jacobian`;
no `_norm_jacobian` method exists on this class (that name belongs to
`NLPLayerNorm`, from which `NLPRMSNorm` does not inherit). -/
def NLPRMSNorm.definedAttrs : List RMSAttr :=
  [.initial_pass, .forward, .rmsnorm_jacobian, .backward_p1, .backward_p2]

/-- `NLPRMSNorm._rmsnorm_jacobian` from the source, parametric in the
`torch.sqrt` primitive: the per-example `(b, c)` Jacobian has off-diagonal
entries `w_j * (-(x_i / n) * z_j) / mp2` and diagonal entries
`w_i * ((sqrt(mp2) - (x_i / n) * z_i) / mp2)` where `x = inputs`,
`z = rms_norm_x`, `mp2 = mean_pow2`, `n = dim_size`. -/
def NLPRMSNorm.rmsnorm_jacobian (sqrtFn : ℚ → ℚ) (s : NLPRMSNorm) :
    Nat → Nat → Nat → Nat → ℚ :=
  fun b c i j =>
    if i = j then
      s.weights i *
        ((sqrtFn (s.mean_pow2 b c) -
            s.inputs b c i * (1 / (s.dim_size : ℚ)) * s.rms_norm_x b c i) /
          s.mean_pow2 b c)
    else
      s.weights j *
        ((-(s.inputs b c i) * (1 / (s.dim_size : ℚ)) * s.rms_norm_x b c j) /
          s.mean_pow2 b c)

/-- Attribute lookup on an `NLPRMSNorm` object for Jacobian-shaped helpers:
only `_rmsnorm_jacobian` resolves; any other name raises `AttributeError`. -/
def NLPRMSNorm.getattr (sqrtFn : ℚ → ℚ) (a : RMSAttr) :
    Option (NLPRMSNorm → Nat → Nat → Nat → Nat → ℚ) :=
  if a = .rmsnorm_jacobian then some (NLPRMSNorm.rmsnorm_jacobian sqrtFn) else none

/-- A raised Python `AttributeError` for a missing attribute. -/
inductive RMSErr where
  | attributeError (missing : RMSAttr)
deriving DecidableEq

/-- `NLPRMSNorm.backward_p1` from the source: first stores `dL_dout` into the
cached buffer, then calls `self._norm_jacobian()` — an attribute this class
does not define — and would contract `dL_dout` with the resulting Jacobian
per example.  The mutate-then-raise order is kept by returning the updated
state together with the `Except` outcome. -/
def NLPRMSNorm.backward_p1 (sqrtFn : ℚ → ℚ) (s : NLPRMSNorm)
    (d : Nat → Nat → Nat → ℚ) :
    NLPRMSNorm × Except RMSErr (Nat → Nat → Nat → ℚ) :=
  let s1 := { s with dL_dout := d }
  match NLPRMSNorm.getattr sqrtFn .norm_jacobian with
  | none => (s1, .error (.attributeError .norm_jacobian))
  | some jf =>
      let J := jf s1
      (s1, .ok (fun b c j => sumR s.dim_size (fun i => d b c i * J b c i j)))

/-- The attention-weight stage of `MultiHeadAttention.initial_pass`:
`torch.softmax(QK_T, dim=-1)` on the scaled score tensor
`S : (batch, query, head, key)`, i.e. each `(b, c, h)` row is normalized over
the `Ckeys` key positions alone.  `e` abstracts the `exp` primitive. -/
def MultiHeadAttention.initialPassAttnWeights (e : ℚ → ℚ) (Ckeys : Nat)
    (S : Nat → Nat → Nat → Nat → ℚ) : Nat → Nat → Nat → Nat → ℚ :=
  fun b c h j => e (S b c h j) / sumR Ckeys (fun j2 => e (S b c h j2))

/-- The attention-weight stage of `MultiHeadAttention.forward`: the inner
`_softmax(x) = exp(x) / torch.sum(exp(x))` is mapped by `vmap(vmap(·))` over
the batch and query dimensions only, so each `(b, c)` slice is normalized
over the whole `H × Ckeys` block of scores — all heads and all key positions
together. -/
def MultiHeadAttention.forwardAttnWeights (e : ℚ → ℚ) (H Ckeys : Nat)
    (S : Nat → Nat → Nat → Nat → ℚ) : Nat → Nat → Nat → Nat → ℚ :=
  fun b c h j =>
    e (S b c h j) / sumR H (fun h2 => sumR Ckeys (fun j2 => e (S b c h2 j2)))

/-- The `backward_p1` maps of the children of a `BertBlock`, abstracted as
functions on gradients; `multihead_p1` returns the `(dL_dQ, dL_dK, dL_dV)`
triple. -/
structure BertBackwardParts (V : Type) where
  dropout_ff : V → V
  norm_ff : V → V
  linear1 : V → V
  ff_act : V → V
  linear0 : V → V
  dropout_mh : V → V
  norm_mh : V → V
  multihead_p1 : V → V × V × V

/-- `BertBlock.backward_p1` from the source, parametric in the children's
`backward_p1` maps; note the second summand of `dL_dnormmhout` is the block's
overall `dL_dout`, and the final `torch.sum(torch.stack(...))` of the
attention's three input gradients becomes `q + k + v`. -/
def BertBlock.backward_p1 {V : Type} [Add V] (P : BertBackwardParts V)
    (dL_dout : V) : V :=
  let dL_dff2norm := P.dropout_ff dL_dout
  let dL_dff2 := P.norm_ff dL_dff2norm
  let dL_da := P.linear1 dL_dff2
  let dL_dff1 := P.ff_act dL_da
  let dL_dnormmhout := P.linear0 dL_dff1 + dL_dout
  let dL_dnormmhout2 := P.dropout_mh dL_dnormmhout
  let dL_dmhout := P.norm_mh dL_dnormmhout2
  let t := P.multihead_p1 dL_dmhout
  (t.1 + t.2.1 + t.2.2) + dL_dmhout

/-- The residual-sum form the claim states for the feed-forward skip
connection `ff2 = linears[1](a) + norm_mh_out`: at that addition point both
branches receive `dL_dff2`, the gradient flowing into the addition — the
only change from `BertBlock.backward_p1` is the second summand of
`dL_dnormmhout`. -/
def BertBlock.backward_p1_residual_sum {V : Type} [Add V]
    (P : BertBackwardParts V) (dL_dout : V) : V :=
  let dL_dff2norm := P.dropout_ff dL_dout
  let dL_dff2 := P.norm_ff dL_dff2norm
  let dL_da := P.linear1 dL_dff2
  let dL_dff1 := P.ff_act dL_da
  let dL_dnormmhout := P.linear0 dL_dff1 + dL_dff2
  let dL_dnormmhout2 := P.dropout_mh dL_dnormmhout
  let dL_dmhout := P.norm_mh dL_dnormmhout2
  let t := P.multihead_p1 dL_dmhout
  (t.1 + t.2.1 + t.2.2) + dL_dmhout

/-- The `backward_p1` maps of the children of a `BasicResNetBlock`; the
shortcut is the (possibly empty) list of its layers' maps in forward order. -/
structure ResNetBackwardParts (V : Type) where
  relu1 : V → V
  batchnorm1 : V → V
  conv1 : V → V
  relu0 : V → V
  batchnorm0 : V → V
  conv0 : V → V
  shortcut : List (V → V)

/-- `BasicResNetBlock.backward_p1` from the source, parametric in the
children's `backward_p1` maps: the main chain and the reversed shortcut chain
both start from `dL_dshortcut = relus[1].backward_p1(dL_dout)` and the two
results are added. -/
def BasicResNetBlock.backward_p1 {V : Type} [Add V] (P : ResNetBackwardParts V)
    (dL_dout : V) : V :=
  let dL_dshortcut := P.relu1 dL_dout
  let dL_dconv1 := P.batchnorm1 dL_dshortcut
  let dL_drelu0 := P.conv1 dL_dconv1
  let dL_dbn0 := P.relu0 dL_drelu0
  let dL_dconv0 := P.batchnorm0 dL_dbn0
  let dL_din1 := P.conv0 dL_dconv0
  let dL_din2 := (P.shortcut.reverse).foldl (fun g l => l g) dL_dshortcut
  dL_din1 + dL_din2

/-- A fixed-rank NCHW tensor for the pooling layers: dimension fields plus an
index function. -/
structure STensor4 where
  B : Nat
  C : Nat
  H : Nat
  W : Nat
  data : Nat → Nat → Nat → Nat → ℚ

/-- `AvgPool2D` configuration: normalized kernel size, stride and padding. -/
structure AvgPool2D where
  k_size : Nat × Nat
  stride : Nat × Nat
  padding : Nat

/-- `F.avg_pool2d` as called by `AvgPool2D.forward`: each output cell is the
mean over its `kh × kw` window of the zero-padded input (PyTorch's default
`count_include_pad` divides by the full window size). -/
def AvgPool2D.forward (cfg : AvgPool2D) (x : STensor4) : STensor4 :=
  { B := x.B
    C := x.C
    H := (x.H + 2 * cfg.padding - cfg.k_size.1) / cfg.stride.1 + 1
    W := (x.W + 2 * cfg.padding - cfg.k_size.2) / cfg.stride.2 + 1
    data := fun n c i j =>
      sumR cfg.k_size.1 (fun u => sumR cfg.k_size.2 (fun v =>
        padAt x.H x.W cfg.padding (x.data n c)
          (i * cfg.stride.1 + u) (j * cfg.stride.2 + v))) /
        ((cfg.k_size.1 * cfg.k_size.2 : Nat) : ℚ) }

/-- `AvgPool2D.backward_p1` from the source: literally
`dL_dout * (1 / (k_size[0] * k_size[1]))` — an elementwise scaling of the
pooled-shape gradient, with no scatter back to input positions. -/
def AvgPool2D.backward_p1 (cfg : AvgPool2D) (dL_dout : STensor4) : STensor4 :=
  { dL_dout with data := fun n c i j =>
      dL_dout.data n c i j * (1 / ((cfg.k_size.1 * cfg.k_size.2 : Nat) : ℚ)) }

/-- Modelled from the spec: the claimed `AvgPool2D.backward_p1` — an
input-shaped tensor in which every input position receives
`dL_dy / (kh * kw)` from each output window covering it, summed over
overlapping windows. -/
def AvgPool2D.backward_p1_claim (cfg : AvgPool2D) (inH inW : Nat)
    (dL_dout : STensor4) : STensor4 :=
  { B := dL_dout.B
    C := dL_dout.C
    H := inH
    W := inW
    data := fun n c y x =>
      sumR dL_dout.H (fun i => sumR dL_dout.W (fun j =>
        if i * cfg.stride.1 ≤ y + cfg.padding ∧
            y + cfg.padding < i * cfg.stride.1 + cfg.k_size.1 ∧
            j * cfg.stride.2 ≤ x + cfg.padding ∧
            x + cfg.padding < j * cfg.stride.2 + cfg.k_size.2 then
          dL_dout.data n c i j / ((cfg.k_size.1 * cfg.k_size.2 : Nat) : ℚ)
        else 0)) }

/-- A pipeline stage's local layer as the distributed coordinator sees it:
its `__call__`/`forward` map, its `backward_p1` map (both on whole
activation/gradient tensors of some type `V`), and its `multi_stage`
attribute — `None` because neither the `Layer` base class nor any layer in
`layers.py` ever defines one. -/
structure PipelineLayer (V : Type) where
  forward : V → V
  backward_p1 : V → V
  multi_stage : Option Bool

/-- Attributes the interior-rank `Model.backward` branch dereferences. -/
inductive ModelAttr where
  | rank
  | multi_stage
deriving DecidableEq

/-- Outcome of the interior-rank `Model.backward` branch: either an
`AttributeError` (recording the cached `self.dL_dout` at the moment of the
raise and whatever was already sent), or normal completion with the cached
value, the `(tensor, destination)` pair handed to `dist.send`, and whether
the `backward_p2` loop ran. -/
inductive InteriorBackwardResult (V : Type) where
  | attributeError (missing : ModelAttr) (dL_dout_cache : V) (sent : Option (V × Int))
  | ok (dL_dout_cache : V) (sent : V × Int) (ranP2 : Bool)
deriving DecidableEq

/-- The interior-rank branch of `models.py`'s `Model.backward`, translated
statement by statement: `dist.recv(self.dL_dout, rank+1)` delivers `g_recv`;
the loop over `self.layers[::-1]` assigns `self.dL_dout = layer(self.dL_dout)`
— `Layer.__call__`, i.e. `forward`, not `backward_p1`; then
`dist.send(dL_dout, self.rank - 1)` sends the untouched function argument
`dL_dout_arg` to `self.rank - 1`, where `self.rank` is an attribute no
`__init__` ever sets (`self_rank = none` in the running program, raising
`AttributeError` before the send); finally `if layer.multi_stage:` reads an
attribute no layer defines on the last loop value of `layer`, which is
`self.layers[0]`, gating the `backward_p2` loop. -/
def Model.backward_interior {V : Type} (layers : List (PipelineLayer V))
    (self_rank : Option Int) (dL_dout_arg g_recv : V) : InteriorBackwardResult V :=
  let cache := (layers.reverse).foldl (fun g l => l.forward g) g_recv
  match self_rank with
  | none => .attributeError .rank cache none
  | some r =>
    match layers.head? with
    | none => .attributeError .multi_stage cache (some (dL_dout_arg, r - 1))
    | some firstLayer =>
      match firstLayer.multi_stage with
      | none => .attributeError .multi_stage cache (some (dL_dout_arg, r - 1))
      | some ms => .ok cache (dL_dout_arg, r - 1) ms

/-- Modelled from the spec (§4.4, interior rank): the gradient an interior
rank should blocking-send to `rank-1` — the received gradient threaded
through every local layer's `backward_p1` in exact reverse order. -/
def interiorBackwardClaimSent {V : Type} (layers : List (PipelineLayer V))
    (g_recv : V) : V :=
  (layers.reverse).foldl (fun g l => l.backward_p1 g) g_recv

/-- The two interior-stage layers of the C1 scenario: `forward` adds one,
`backward_p1` doubles, and (as in the source) no `multi_stage` attribute. -/
def c1Layers : List (PipelineLayer ℚ) :=
  [⟨fun g => g + 1, fun g => 2 * g, none⟩, ⟨fun g => g + 1, fun g => 2 * g, none⟩]

/-- The scaled attention-score tensor of the C3 scenario: two heads with
scores 0 and 1, a single batch element, query position and key position. -/
def c3Scores : Nat → Nat → Nat → Nat → ℚ :=
  fun _ _ h _ => if h = 0 then 0 else 1

/-- Child `backward_p1` maps for the C4 scenario: every child is the identity
except the feed-forward layer norm, whose `backward_p1` doubles the gradient,
and the attention, which returns its incoming gradient three times. -/
def c4Parts : BertBackwardParts ℚ :=
  { dropout_ff := id
    norm_ff := fun g => 2 * g
    linear1 := id
    ff_act := id
    linear0 := id
    dropout_mh := id
    norm_mh := id
    multihead_p1 := fun g => (g, g, g) }

/-- `AvgPool2D(k_size=2, stride=1, padding=0)` of the C5 scenario. -/
def c5Pool : AvgPool2D := { k_size := (2, 2), stride := (1, 1), padding := 0 }

/-- The `1 × 1 × 2 × 2` input of the C5 scenario. -/
def c5Input : STensor4 := { B := 1, C := 1, H := 2, W := 2, data := fun _ _ _ _ => 1 }

/-- The pooled-shape `1 × 1 × 1 × 1` output gradient of the C5 scenario. -/
def c5Grad : STensor4 := { B := 1, C := 1, H := 1, W := 1, data := fun _ _ _ _ => 4 }

/-- A training-mode Dropout(p=1/2) state with a stale mask, for the C7
witness. -/
def c7Drop : Dropout := { p := 1 / 2, training := true, p_mask := [1, 0] }

/-- An inference-mode Dropout(p=1/2) state with a frozen mask, for the C7
witness. -/
def c7DropEval : Dropout := { p := 1 / 2, training := false, p_mask := [1, 0] }

/-- A Dense state whose cached `dL_dout` is 2-dimensional, for the C8
witness. -/
def c8Dense : Dense :=
  { weights := [[1]], bias := [1], weights_g := [[5]], bias_g := [7]
    inputs := ⟨[1, 1], [3]⟩, dL_dout := ⟨[1, 1], [2]⟩ }

/-- A Conv2D state with a bias, for the C8 witness. -/
def c8Conv : Conv2D :=
  { in_channels := 1, out_channels := 1, kh := 1, kw := 1
    kernel := fun _ _ _ _ => 1, bias := some (fun _ => 0)
    kernel_g := fun _ _ _ _ => 0, bias_g := some (fun _ => 0)
    stride := (1, 1), padding := 0
    inB := 1, inH := 1, inW := 1, inputs := fun _ _ _ _ => 3
    outH := 1, outW := 1, dL_dout := fun _ _ _ _ => 2 }

/-- A Dense state whose cached `dL_dout` is 4-dimensional (the shape a
convolutional feature map would have), with stale nonzero gradient buffers,
for the C10 witness. -/
def c10Dense : Dense :=
  { weights := [[1]], bias := [1], weights_g := [[5]], bias_g := [7]
    inputs := ⟨[1, 1, 1, 1], [3]⟩, dL_dout := ⟨[1, 1, 1, 1], [2]⟩ }

/-- The concrete Dense(4→3) layer of the spec's scenario, with freshly
allocated (zero) gradient and cache buffers. -/
def c6Dense : Dense :=
  { weights := [[1, 0, 0], [0, 1, 0], [0, 0, 1], [1, 1, 1]]
    bias := [0, 0, 0]
    weights_g := [[0, 0, 0], [0, 0, 0], [0, 0, 0], [0, 0, 0]]
    bias_g := [0, 0, 0]
    inputs := ⟨[1, 4], [0, 0, 0, 0]⟩
    dL_dout := ⟨[1, 3], [0, 0, 0]⟩ }

/-- C6: Dense(4→3) with `W=[[1,0,0],[0,1,0],[0,0,1],[1,1,1]]`, `b=[0,0,0]`:
`forward` on the example `x=[1,2,3,4]` (a batch of one) returns `[5,6,7]`;
`backward_p1` on `dL_dy=[1,1,1]` returns `[1,1,1,3]`; `backward_p2` sets the
weight gradient to the outer product `x ⊗ dL_dy` and the bias gradient to
`[1,1,1]`, raising no error. -/
theorem dense_concrete_scenario :
    (Dense.forward c6Dense ⟨[1, 4], [1, 2, 3, 4]⟩).1 = ⟨[1, 3], [5, 6, 7]⟩ ∧
    (Dense.backward_p1 (Dense.forward c6Dense ⟨[1, 4], [1, 2, 3, 4]⟩).2
        ⟨[1, 3], [1, 1, 1]⟩).1 = ⟨[1, 4], [1, 1, 1, 3]⟩ ∧
    (Dense.backward_p2 (Dense.backward_p1
        (Dense.forward c6Dense ⟨[1, 4], [1, 2, 3, 4]⟩).2 ⟨[1, 3], [1, 1, 1]⟩).2).2 = none ∧
    (Dense.backward_p2 (Dense.backward_p1
        (Dense.forward c6Dense ⟨[1, 4], [1, 2, 3, 4]⟩).2 ⟨[1, 3], [1, 1, 1]⟩).2).1.weights_g =
      [[1, 1, 1], [2, 2, 2], [3, 3, 3], [4, 4, 4]] ∧
    (Dense.backward_p2 (Dense.backward_p1
        (Dense.forward c6Dense ⟨[1, 4], [1, 2, 3, 4]⟩).2 ⟨[1, 3], [1, 1, 1]⟩).2).1.bias_g =
      [1, 1, 1] := by
  refine ⟨?_, ?_, ?_, ?_, ?_⟩ <;>
    norm_num [Dense.forward, Dense.backward_p1, Dense.backward_p2, Dense.biasGradCalc,
      c6Dense, sumR, Tensor.entry, Tensor.groups, Tensor.lastDim, Tensor.ndim, listProd,
      Wat, Dense.inputSize, Dense.outputSize, List.range_succ]

/-- C1: the claim says the interior-rank `backward` receives the gradient
from `rank+1`, threads it through every local layer's `backward_p1` in
reverse, sends the transformed gradient to `rank-1`, then runs `backward_p2`
on every layer.  The code instead applies `layer(...)` (forward), raises
`AttributeError` on the never-assigned `self.rank` before any send, would
send the untransformed function argument (7) rather than the
`backward_p1`-threaded value (20) even if `rank` were set, and gates
`backward_p2` behind the undefined `multi_stage` attribute. -/
theorem model_backward_interior_diverges :
    Model.backward_interior c1Layers none 7 5 =
      .attributeError .rank 7 none ∧
    Model.backward_interior c1Layers (some 1) 7 5 =
      .attributeError .multi_stage 7 (some (7, 0)) ∧
    interiorBackwardClaimSent c1Layers 5 = 20 := by
  refine ⟨?_, ?_, ?_⟩ <;>
    norm_num [Model.backward_interior, interiorBackwardClaimSent, c1Layers]

/-- C2: the claim says `NLPRMSNorm.backward_p1` returns `dL_dout` contracted
with the per-example RMS-norm Jacobian rather than failing.  The code stores
`dL_dout` and then calls `self._norm_jacobian()`, an attribute the class does
not define (its Jacobian helper is named `_rmsnorm_jacobian`), so every call
raises `AttributeError` instead of returning the vector-Jacobian product. -/
theorem rmsnorm_backward_p1_attribute_error (sqrtFn : ℚ → ℚ) (s : NLPRMSNorm)
    (d : Nat → Nat → Nat → ℚ) :
    (NLPRMSNorm.backward_p1 sqrtFn s d).2 =
      .error (.attributeError .norm_jacobian) ∧
    (NLPRMSNorm.backward_p1 sqrtFn s d).1.dL_dout = d ∧
    RMSAttr.rmsnorm_jacobian ∈ NLPRMSNorm.definedAttrs ∧
    RMSAttr.norm_jacobian ∉ NLPRMSNorm.definedAttrs :=
  ⟨rfl, rfl, by decide, by decide⟩

/-- C3: the claim says `forward`'s attention weights are a row-wise softmax
over the key dimension for every number of heads, agreeing with
`initial_pass`.  With two heads and a single key position the row-wise
softmax of `initial_pass` is identically 1, but `forward`'s `_softmax`
normalizes over the whole heads × keys slice, giving a weight strictly below
1 for any positive `exp` primitive. -/
theorem mha_forward_softmax_not_rowwise (e : ℚ → ℚ) (he : ∀ x, 0 < e x) :
    MultiHeadAttention.initialPassAttnWeights e 1 c3Scores 0 0 0 0 = 1 ∧
    MultiHeadAttention.forwardAttnWeights e 2 1 c3Scores 0 0 0 0 ≠ 1 := by
  have hsum1 : sumR 1 (fun j2 => e (c3Scores 0 0 0 j2)) = e 0 := by
    simp [sumR, List.range_succ, c3Scores]
  have hsum2 : sumR 2 (fun h2 => sumR 1 (fun j2 => e (c3Scores 0 0 h2 j2))) =
      e 0 + e 1 := by
    simp [sumR, List.range_succ, c3Scores]
  constructor
  · show e (c3Scores 0 0 0 0) / sumR 1 (fun j2 => e (c3Scores 0 0 0 j2)) = 1
    rw [hsum1, show c3Scores 0 0 0 0 = 0 from rfl]
    exact div_self (ne_of_gt (he 0))
  · show e (c3Scores 0 0 0 0) /
        sumR 2 (fun h2 => sumR 1 (fun j2 => e (c3Scores 0 0 h2 j2))) ≠ 1
    rw [hsum2, show c3Scores 0 0 0 0 = 0 from rfl]
    have hd : 0 < e 0 + e 1 := add_pos (he 0) (he 1)
    have hlt : e 0 / (e 0 + e 1) < 1 := (div_lt_one hd).mpr (by linarith [he 1])
    exact ne_of_lt hlt

/-- Witness for C3 at the concrete positive primitive `e = const 1`:
`initial_pass` gives weight 1 where `forward` does not. -/
theorem mha_forward_softmax_not_rowwise_witness :
    MultiHeadAttention.initialPassAttnWeights (fun _ => 1) 1 c3Scores 0 0 0 0 = 1 ∧
    MultiHeadAttention.forwardAttnWeights (fun _ => 1) 2 1 c3Scores 0 0 0 0 ≠ 1 :=
  mha_forward_softmax_not_rowwise (fun _ => 1) (fun _ => one_pos)

/-- C4: the claim says every residual-addition point sums the two branch
gradients evaluated at the gradient flowing into that addition point.  In
`BertBlock.backward_p1` the feed-forward skip `ff2 = linears[1](a) +
norm_mh_out` instead adds the block's overall `dL_dout` to the shortcut
branch: with every child the identity except a doubling `norms["ff"]`
backward, the code yields 12 where the residual-sum form yields 16.
`BasicResNetBlock.backward_p1` does satisfy the claimed form: both branches
start from `relus[1].backward_p1(dL_dout)`, the gradient at its addition
point. -/
theorem bert_ff_residual_gradient_mismatch :
    BertBlock.backward_p1 c4Parts 1 = 12 ∧
    BertBlock.backward_p1_residual_sum c4Parts 1 = 16 ∧
    BertBlock.backward_p1 c4Parts 1 ≠ BertBlock.backward_p1_residual_sum c4Parts 1 ∧
    (∀ (P : ResNetBackwardParts ℚ) (g : ℚ),
      BasicResNetBlock.backward_p1 P g =
        P.conv0 (P.batchnorm0 (P.relu0 (P.conv1 (P.batchnorm1 (P.relu1 g))))) +
          (P.shortcut.reverse).foldl (fun a l => l a) (P.relu1 g)) := by
  refine ⟨?_, ?_, ?_, fun P g => rfl⟩ <;>
    norm_num [BertBlock.backward_p1, BertBlock.backward_p1_residual_sum, c4Parts]

/-- C5: the claim says `AvgPool2D.backward_p1` returns an input-shaped tensor
distributing `dL_dy / (kh·kw)` into every window position.  For a `2 × 2`
input pooled by a `2 × 2` kernel (stride 1, no padding) the output — and
hence the code's scaled copy of `dL_dout` — is `1 × 1`, while the claimed
gradient is the `2 × 2` tensor putting `4 / 4 = 1` at each input position:
the code keeps the pooled shape and never scatters. -/
theorem avgpool_backward_shape_mismatch :
    (AvgPool2D.forward c5Pool c5Input).H = 1 ∧
    (AvgPool2D.forward c5Pool c5Input).W = 1 ∧
    (AvgPool2D.backward_p1 c5Pool c5Grad).H = 1 ∧
    (AvgPool2D.backward_p1 c5Pool c5Grad).W = 1 ∧
    c5Input.H = 2 ∧
    (AvgPool2D.backward_p1 c5Pool c5Grad).H ≠ c5Input.H ∧
    (AvgPool2D.backward_p1_claim c5Pool c5Input.H c5Input.W c5Grad).H = 2 ∧
    (AvgPool2D.backward_p1_claim c5Pool c5Input.H c5Input.W c5Grad).W = 2 ∧
    (AvgPool2D.backward_p1 c5Pool c5Grad).data 0 0 0 0 = 1 ∧
    (AvgPool2D.backward_p1_claim c5Pool c5Input.H c5Input.W c5Grad).data 0 0 0 0 = 1 ∧
    (AvgPool2D.backward_p1_claim c5Pool c5Input.H c5Input.W c5Grad).data 0 0 0 1 = 1 ∧
    (AvgPool2D.backward_p1_claim c5Pool c5Input.H c5Input.W c5Grad).data 0 0 1 0 = 1 ∧
    (AvgPool2D.backward_p1_claim c5Pool c5Input.H c5Input.W c5Grad).data 0 0 1 1 = 1 := by
  refine ⟨?_, ?_, ?_, ?_, ?_, ?_, ?_, ?_, ?_, ?_, ?_, ?_, ?_⟩ <;>
    norm_num [AvgPool2D.forward, AvgPool2D.backward_p1, AvgPool2D.backward_p1_claim,
      c5Pool, c5Input, c5Grad, sumR, List.range_succ, padAt]

/-- C7: while training with `0 < p < 1` every `forward` call overwrites the
mask with the fresh Bernoulli draw of that call and returns the input times
that fresh mask (two successive calls use their own draws); in inference mode
`forward` returns the input and leaves the mask state untouched, and
`backward_p1` applies the frozen mask left by the last training-mode call. -/
theorem dropout_mask_resample_freeze (s t : Dropout) (x f1 f2 d : List ℚ)
    (hs : s.training = true) (h0 : 0 < s.p) (h1 : s.p < 1)
    (ht : t.training = false) (h0t : 0 < t.p) (h1t : t.p < 1) :
    Dropout.forward s x f1 =
      (x.zipWith (fun a b => a * b) f1, { s with p_mask := f1 }) ∧
    Dropout.forward { s with p_mask := f1 } x f2 =
      (x.zipWith (fun a b => a * b) f2, { s with p_mask := f2 }) ∧
    Dropout.forward t x f1 = (x, t) ∧
    Dropout.backward_p1 t d = d.zipWith (fun a b => a * b) t.p_mask := by
  have hp0 : s.p ≠ 0 := ne_of_gt h0
  have hp1 : s.p ≠ 1 := ne_of_lt h1
  have hq0 : t.p ≠ 0 := ne_of_gt h0t
  have hq1 : t.p ≠ 1 := ne_of_lt h1t
  refine ⟨?_, ?_, ?_, ?_⟩ <;>
    simp [Dropout.forward, Dropout.backward_p1, hs, ht, hp0, hp1, hq0, hq1]

/-- Witness for C7 at Dropout(p=1/2) states: a training-mode call multiplies
by the fresh draw and stores it; an inference-mode `backward_p1` multiplies
by the frozen mask. -/
theorem dropout_mask_resample_freeze_witness :
    Dropout.forward c7Drop [2, 3] [0, 1] =
      ([2, 3].zipWith (fun a b => a * b) [0, 1], { c7Drop with p_mask := [0, 1] }) ∧
    Dropout.forward c7DropEval [2, 3] [0, 1] = ([2, 3], c7DropEval) ∧
    Dropout.backward_p1 c7DropEval [4, 5] =
      [4, 5].zipWith (fun a b => a * b) c7DropEval.p_mask :=
  have h := dropout_mask_resample_freeze c7Drop c7DropEval [2, 3] [0, 1] [1, 1] [4, 5]
    rfl (by norm_num [c7Drop]) (by norm_num [c7Drop])
    rfl (by norm_num [c7DropEval]) (by norm_num [c7DropEval])
  ⟨h.1, h.2.2.1, h.2.2.2⟩

/-- C8: for each parameterized layer, `backward_p2` overwrites the gradient
buffers with a value computed from cached state only: changing the previous
buffer contents does not change the buffers it writes, and running
`backward_p2` twice in a row equals running it once (the `Dense` statement is
over the supported 2-D/3-D cached gradients; the Conv2D bias-buffer statement
is for layers constructed with a bias). -/
theorem backward_p2_overwrites_gradients :
    (∀ (d : Dense) (wg : List (List ℚ)) (bg : List ℚ),
      d.dL_dout.ndim = 2 ∨ d.dL_dout.ndim = 3 →
        (Dense.backward_p2 { d with weights_g := wg, bias_g := bg }).1.weights_g =
            (Dense.backward_p2 d).1.weights_g ∧
        (Dense.backward_p2 { d with weights_g := wg, bias_g := bg }).1.bias_g =
            (Dense.backward_p2 d).1.bias_g ∧
        (Dense.backward_p2 (Dense.backward_p2 d).1).1 = (Dense.backward_p2 d).1) ∧
    (∀ (s : Conv2D) (kg : Nat → Nat → Nat → Nat → ℚ) (bg : Nat → ℚ),
      (Conv2D.backward_p2 { s with kernel_g := kg }).kernel_g =
          (Conv2D.backward_p2 s).kernel_g ∧
      (s.bias.isSome = true →
        (Conv2D.backward_p2 { s with bias_g := some bg }).bias_g =
          (Conv2D.backward_p2 s).bias_g) ∧
      Conv2D.backward_p2 (Conv2D.backward_p2 s) = Conv2D.backward_p2 s) ∧
    (∀ (s : BatchNorm2D) (gg bb : Nat → ℚ),
      (BatchNorm2D.backward_p2 { s with gamma_g := gg, beta_g := bb }).gamma_g =
          (BatchNorm2D.backward_p2 s).gamma_g ∧
      (BatchNorm2D.backward_p2 { s with gamma_g := gg, beta_g := bb }).beta_g =
          (BatchNorm2D.backward_p2 s).beta_g ∧
      BatchNorm2D.backward_p2 (BatchNorm2D.backward_p2 s) =
        BatchNorm2D.backward_p2 s) ∧
    (∀ (s : NLPLayerNorm) (gg bb : Nat → ℚ),
      (NLPLayerNorm.backward_p2 { s with gamma_g := gg, bias_g := bb }).gamma_g =
          (NLPLayerNorm.backward_p2 s).gamma_g ∧
      (NLPLayerNorm.backward_p2 { s with gamma_g := gg, bias_g := bb }).bias_g =
          (NLPLayerNorm.backward_p2 s).bias_g ∧
      NLPLayerNorm.backward_p2 (NLPLayerNorm.backward_p2 s) =
        NLPLayerNorm.backward_p2 s) ∧
    (∀ (s : NLPRMSNorm) (wg : Nat → ℚ),
      (NLPRMSNorm.backward_p2 { s with weights_g := wg }).weights_g =
          (NLPRMSNorm.backward_p2 s).weights_g ∧
      NLPRMSNorm.backward_p2 (NLPRMSNorm.backward_p2 s) =
        NLPRMSNorm.backward_p2 s) := by
  refine ⟨?_, ?_, ?_, ?_, ?_⟩
  · intro d wg bg h
    rcases h with h | h <;>
      refine ⟨?_, ?_, ?_⟩ <;> simp [Dense.backward_p2, Dense.inputSize, h]
  · intro s kg bg
    refine ⟨?_, ?_, ?_⟩
    · cases hb : s.bias <;> simp [Conv2D.backward_p2, hb]
    · intro hsome
      cases hb : s.bias
      · rw [hb] at hsome; cases hsome
      · simp [Conv2D.backward_p2, hb]
    · cases hb : s.bias <;> simp [Conv2D.backward_p2, hb]
  · intro s gg bb
    exact ⟨rfl, rfl, rfl⟩
  · intro s gg bb
    exact ⟨rfl, rfl, rfl⟩
  · intro s wg
    exact ⟨rfl, rfl⟩

/-- Witness for C8 at concrete states: a second `Dense.backward_p2` on a 2-D
cached gradient is a no-op over the first, and a biased Conv2D's bias
gradient after `backward_p2` does not depend on the buffer's stale value. -/
theorem backward_p2_overwrites_gradients_witness :
    (Dense.backward_p2 (Dense.backward_p2 c8Dense).1).1 =
      (Dense.backward_p2 c8Dense).1 ∧
    (Conv2D.backward_p2 { c8Conv with bias_g := some (fun _ => 9) }).bias_g =
      (Conv2D.backward_p2 c8Conv).bias_g :=
  ⟨(backward_p2_overwrites_gradients.1 c8Dense [[0]] [0] (Or.inl rfl)).2.2,
   (backward_p2_overwrites_gradients.2.1 c8Conv (fun _ _ _ _ => 0)
      (fun _ => 9)).2.1 rfl⟩

/-- C9: `Conv2D.__init__` raises `NotImplementedError` exactly when a
normalized stride component exceeds 3, and this happens in the constructor
itself, before any `initial_pass` or `forward`; both components at most 3
construct successfully. -/
theorem conv2d_init_stride_check (ic oc : Nat) (k : IntOrPair) (b : Bool)
    (p : BoolOrInt) (st : IntOrPair) :
    constructed (Conv2D.init ic oc k b p st) = true ↔
      (normPair st).1 ≤ 3 ∧ (normPair st).2 ≤ 3 := by
  by_cases h : (normPair st).1 > 3 ∨ (normPair st).2 > 3
  · simp [Conv2D.init, constructed, h]
    omega
  · simp [Conv2D.init, constructed, h]
    omega

/-- C10: when the cached `dL_dout` has `ndim` outside {2, 3},
`Dense.backward_p2` raises the unsupported-ndim exception, but only after the
bias-gradient buffer has already been overwritten with the freshly computed
bias gradient; the weight-gradient buffer keeps its previous contents. -/
theorem dense_backward_p2_nonatomic (d : Dense)
    (h2 : d.dL_dout.ndim ≠ 2) (h3 : d.dL_dout.ndim ≠ 3) :
    (Dense.backward_p2 d).2 = some .unsupportedNdim ∧
    (Dense.backward_p2 d).1.bias_g = Dense.biasGradCalc d.dL_dout ∧
    (Dense.backward_p2 d).1.weights_g = d.weights_g := by
  refine ⟨?_, ?_, ?_⟩ <;> simp [Dense.backward_p2, h2, h3]

/-- Witness for C10 at a Dense state with a 4-dimensional cached gradient and
stale nonzero buffers. -/
theorem dense_backward_p2_nonatomic_witness :
    (Dense.backward_p2 c10Dense).2 = some .unsupportedNdim ∧
    (Dense.backward_p2 c10Dense).1.bias_g = Dense.biasGradCalc c10Dense.dL_dout ∧
    (Dense.backward_p2 c10Dense).1.weights_g = c10Dense.weights_g :=
  dense_backward_p2_nonatomic c10Dense (by decide) (by decide)

end Smartback
